import Mathlib

/-!
# Verification of the Batcherbird sampling pipeline

A shallow embedding of the core logic of the Batcherbird repository
(`crates/batcherbird-core`): the MIDI transport (`midi.rs`), the sampling
orchestrator (`sampler.rs`), the boundary-detection engine (`detection.rs`),
the loop-point correlation (`loop_detection.rs`) and the exporter
(`export.rs`).  Machine integers are modelled as `Nat`/`Int` with explicit
wrap-around where the Rust code can overflow in release builds; `f32`
samples and millisecond values are modelled as `ℚ`; fallible operations
return `Except`, and a Rust panic is modelled as `Option.none`.
-/

namespace Batcherbird

/-! ## MIDI transport (`midi.rs`)

A MIDI output connection is modelled by an oracle `ok : ℕ → Bool` deciding
whether the `k`-th `conn.send` call on the connection succeeds, together
with the number of send calls made so far and the trace of all messages
handed to `send` (each message is the 3-byte payload, bytes as `ℕ`). -/

structure ConnState where
  ok : ℕ → Bool
  count : ℕ
  sent : List (List ℕ)

/-- `conn.send(&msg)`: records the message and reports success per the oracle. -/
def sendMsg (msg : List ℕ) (s : ConnState) : Bool × ConnState :=
  (s.ok s.count, { s with count := s.count + 1, sent := s.sent ++ [msg] })

/-- A send whose result is discarded (`let _ = conn.send(...)` in `midi.rs`). -/
def sendIgnore (msg : List ℕ) (s : ConnState) : ConnState :=
  (sendMsg msg s).2

/-- `MidiManager::send_note_on`: emits `[0x90 | (channel & 0x0F), note & 0x7F,
velocity & 0x7F]` and propagates a send failure as an error. -/
def sendNoteOn (channel note velocity : ℕ) (s : ConnState) :
    Except String Unit × ConnState :=
  let r := sendMsg [144 ||| (channel &&& 15), note &&& 127, velocity &&& 127] s
  (if r.1 then Except.ok () else Except.error "Failed to send note on", r.2)

/-- `MidiManager::send_note_off`: emits `[0x80 | (channel & 0x0F), note & 0x7F,
velocity & 0x7F]` and propagates a send failure as an error. -/
def sendNoteOff (channel note velocity : ℕ) (s : ConnState) :
    Except String Unit × ConnState :=
  let r := sendMsg [128 ||| (channel &&& 15), note &&& 127, velocity &&& 127] s
  (if r.1 then Except.ok () else Except.error "Failed to send note off", r.2)

/-- Phase 1 body of `send_midi_panic`: per channel, CC 123 (All Notes Off)
then CC 120 (All Sound Off), results discarded. -/
def panicPhase1Step (s : ConnState) (channel : ℕ) : ConnState :=
  sendIgnore [176 ||| channel, 120, 0] (sendIgnore [176 ||| channel, 123, 0] s)

/-- Phase 2 inner body of `send_midi_panic`: one explicit Note-Off; the
`notes_sent` counter is incremented only when the send succeeds. -/
def panicNoteStep (channel : ℕ) (st : ConnState × ℕ) (note : ℕ) : ConnState × ℕ :=
  let r := sendMsg [128 ||| channel, note, 0] st.1
  (r.2, if r.1 then st.2 + 1 else st.2)

/-- Phase 2 body of `send_midi_panic`: 128 explicit Note-Offs on the channel,
then CC 121 (Reset All Controllers) on that same channel, result discarded. -/
def panicPhase2Step (st : ConnState × ℕ) (channel : ℕ) : ConnState × ℕ :=
  let t := (List.range 128).foldl (panicNoteStep channel) st
  (sendIgnore [176 ||| channel, 121, 0] t.1, t.2)

/-- Phase 3 body of `send_midi_panic`: re-broadcast CC 123 on the channel. -/
def panicPhase3Step (s : ConnState) (channel : ℕ) : ConnState :=
  sendIgnore [176 ||| channel, 123, 0] s

/-- `MidiManager::send_midi_panic`: three best-effort phases over all 16
channels; always returns `Ok` with the number of successful Note-Off sends.
The `thread::sleep` pauses of the source have no effect on the message
sequence and are not modelled. -/
def sendMidiPanic (s : ConnState) : Except String ℕ × ConnState :=
  let s1 := (List.range 16).foldl panicPhase1Step s
  let t2 := (List.range 16).foldl panicPhase2Step (s1, 0)
  let s3 := (List.range 16).foldl panicPhase3Step t2.1
  (Except.ok t2.2, s3)

/-- The message sequence `send_midi_panic` hands to `conn.send`, described
declaratively: 16 × (CC123, CC120) broadcasts; then, per channel, 128
explicit Note-Offs followed by that channel's CC121; then 16 × CC123. -/
def panicMessages : List (List ℕ) :=
  ((List.range 16).flatMap fun channel =>
    [[176 ||| channel, 123, 0], [176 ||| channel, 120, 0]])
  ++ ((List.range 16).flatMap fun channel =>
    ((List.range 128).map fun note => [128 ||| channel, note, 0])
      ++ [[176 ||| channel, 121, 0]])
  ++ ((List.range 16).map fun channel => [176 ||| channel, 123, 0])

lemma sendIgnore_sent (msg : List ℕ) (s : ConnState) :
    (sendIgnore msg s).sent = s.sent ++ [msg] := rfl

lemma sendIgnore_ok (msg : List ℕ) (s : ConnState) :
    (sendIgnore msg s).ok = s.ok := rfl

lemma foldl_phase1_sent (l : List ℕ) (s : ConnState) :
    (l.foldl panicPhase1Step s).sent =
      s.sent ++ l.flatMap fun channel =>
        [[176 ||| channel, 123, 0], [176 ||| channel, 120, 0]] := by
  induction l generalizing s with
  | nil => simp
  | cons c l ih =>
      simp only [List.foldl_cons, List.flatMap_cons, ih]
      simp [panicPhase1Step, sendIgnore_sent]

lemma foldl_noteStep_sent (channel : ℕ) (l : List ℕ) (st : ConnState × ℕ) :
    ((l.foldl (panicNoteStep channel) st).1).sent =
      st.1.sent ++ l.map fun note => [128 ||| channel, note, 0] := by
  induction l generalizing st with
  | nil => simp
  | cons n l ih =>
      simp only [List.foldl_cons, List.map_cons, ih]
      simp [panicNoteStep, sendMsg]

lemma foldl_phase2_sent (l : List ℕ) (st : ConnState × ℕ) :
    ((l.foldl panicPhase2Step st).1).sent =
      st.1.sent ++ l.flatMap fun channel =>
        ((List.range 128).map fun note => [128 ||| channel, note, 0])
          ++ [[176 ||| channel, 121, 0]] := by
  induction l generalizing st with
  | nil => simp
  | cons c l ih =>
      simp only [List.foldl_cons, List.flatMap_cons, ih]
      simp [panicPhase2Step, sendIgnore_sent, foldl_noteStep_sent]

lemma foldl_phase3_sent (l : List ℕ) (s : ConnState) :
    (l.foldl panicPhase3Step s).sent =
      s.sent ++ l.map fun channel => [176 ||| channel, 123, 0] := by
  induction l generalizing s with
  | nil => simp
  | cons c l ih =>
      simp only [List.foldl_cons, List.map_cons, ih]
      simp [panicPhase3Step, sendIgnore_sent]

/-- `send_midi_panic` hands exactly the `panicMessages` sequence to `send`,
whatever the per-send success pattern, and always returns `Ok`. -/
lemma sendMidiPanic_sent (s : ConnState) :
    (sendMidiPanic s).2.sent = s.sent ++ panicMessages ∧
      (sendMidiPanic s).1.isOk = true := by
  constructor
  · show ((List.range 16).foldl panicPhase3Step
      ((List.range 16).foldl panicPhase2Step
        ((List.range 16).foldl panicPhase1Step s, 0)).1).sent = _
    rw [foldl_phase3_sent, foldl_phase2_sent, foldl_phase1_sent, panicMessages]
    simp
  · rfl

/-! ## Sampling orchestrator (`sampler.rs`)

`sample_note_range_async` is modelled by the sequence of I/O actions it
performs and the value it returns.  Sleeps and the captured audio are not
modelled, MIDI sends are assumed to succeed (their failure propagation is
modelled by `ConnState` above), and each recorded `Sample` is abstracted to
its note number. -/

inductive MidiEvt where
  | panic
  | streamOpen
  | channelPanic (channel : ℕ)
  | noteOn (channel note velocity : ℕ)
  | noteOff (channel note velocity : ℕ)
  | streamClose
deriving DecidableEq

structure SamplingConfigM where
  midiChannel : ℕ
  velocity : ℕ
deriving DecidableEq

/-- The notes visited by the Rust loop `for note in start_note..=end_note`:
empty when `start_note > end_note`. -/
def rangeNotes (startNote endNote : ℕ) : List ℕ :=
  List.range' startNote (endNote + 1 - startNote)

/-- `SamplingEngine::sample_note_range_async` (and its `_blocking` wrapper):
a `send_midi_panic`, the persistent stream opening, then per note in
`start_note..=end_note` a channel panic, Note-On and Note-Off, then the
stream teardown and a final `send_midi_panic`; returns `Ok` with the
recorded samples.  The function performs no range validation: the `u8`
expression `end_note - start_note + 1` (which wraps in release builds when
`start_note > end_note`) feeds only logging and the inter-note pause, while
the note loop itself is simply empty for a reversed range. -/
def sampleNoteRange (cfg : SamplingConfigM) (startNote endNote : ℕ) :
    List MidiEvt × Except String (List ℕ) :=
  ([MidiEvt.panic, MidiEvt.streamOpen]
    ++ (rangeNotes startNote endNote).flatMap (fun note =>
        [MidiEvt.channelPanic cfg.midiChannel,
         MidiEvt.noteOn cfg.midiChannel note cfg.velocity,
         MidiEvt.noteOff cfg.midiChannel note cfg.velocity])
    ++ [MidiEvt.streamClose, MidiEvt.panic],
   Except.ok (rangeNotes startNote endNote))

lemma length_flatMap_const {α β : Type} (f : α → List β) (k : ℕ)
    (h : ∀ a, (f a).length = k) (l : List α) :
    (l.flatMap f).length = k * l.length := by
  induction l with
  | nil => simp
  | cons a l ih => simp [ih, h a]; ring

lemma panicMessages_length_eq : panicMessages.length = 2112 := by
  rw [panicMessages, List.length_append, List.length_append,
    length_flatMap_const (fun channel =>
      [[176 ||| channel, 123, 0], [176 ||| channel, 120, 0]]) 2 (fun _ => rfl),
    length_flatMap_const (fun channel =>
      ((List.range 128).map fun note => [128 ||| channel, note, 0])
        ++ [[176 ||| channel, 121, 0]]) 129 (fun _ => by simp),
    List.length_map, List.length_range]

/-- C1 (amended): the range-sampling operation performs no validation and
never produces an `InvalidRange` error: for every `(start_note, end_note)` it
returns `Ok` with one sample per note of `start_note..=end_note` (none when
`start_note > end_note`), and the first I/O action is already a MIDI panic,
so even a reversed range causes MIDI and audio I/O instead of an early
validation failure. -/
theorem sampleNoteRange_no_validation (cfg : SamplingConfigM)
    (startNote endNote : ℕ) :
    (sampleNoteRange cfg startNote endNote).2 =
      Except.ok (rangeNotes startNote endNote) ∧
    (rangeNotes startNote endNote).length = endNote + 1 - startNote ∧
    (sampleNoteRange cfg startNote endNote).1.head? = some MidiEvt.panic ∧
    (sampleNoteRange cfg startNote endNote).1.length =
      4 + 3 * (endNote + 1 - startNote) := by
  refine ⟨rfl, by simp [rangeNotes], rfl, ?_⟩
  show ((_ ++ _ ++ _ : List MidiEvt)).length = _
  rw [List.length_append, List.length_append,
    length_flatMap_const
      (fun note =>
        [MidiEvt.channelPanic cfg.midiChannel,
         MidiEvt.noteOn cfg.midiChannel note cfg.velocity,
         MidiEvt.noteOff cfg.midiChannel note cfg.velocity])
      3 (fun _ => rfl)]
  simp [rangeNotes]
  ring

/-- C1 (counterexample): for the reversed range `start_note = 100 >
end_note = 50` the operation does not fail with an `InvalidRange` error
before I/O: it performs the session panics and the stream open/close and
returns `Ok []`. -/
theorem sampleNoteRange_invalid_range_counterexample :
    (sampleNoteRange ⟨0, 100⟩ 100 50).2 = Except.ok [] ∧
    (sampleNoteRange ⟨0, 100⟩ 100 50).1 =
      [MidiEvt.panic, MidiEvt.streamOpen, MidiEvt.streamClose, MidiEvt.panic] :=
  ⟨rfl, rfl⟩

/-- C4 (amended): every call of `send_midi_panic` hands exactly 2,112
messages to `send`, in this order: 16 × (CC123 + CC120) broadcasts, then for
each channel 0..15 in turn its 128 explicit Note-Offs followed immediately by
that channel's CC121, then a final 16 × CC123.  (The CC121s are interleaved
per channel: the first CC121 follows channel 0's Note-Offs and precedes the
Note-Offs of channels 1..15; it is not the case that all 2,048 Note-Offs
precede the first CC121.) -/
theorem sendMidiPanic_message_order (ok₀ : ℕ → Bool) :
    (sendMidiPanic ⟨ok₀, 0, []⟩).2.sent = panicMessages ∧
    panicMessages.length = 2112 := by
  refine ⟨?_, panicMessages_length_eq⟩
  have h := (sendMidiPanic_sent ⟨ok₀, 0, []⟩).1
  simpa using h

/-- C4 (counterexample): in the sequence actually sent, message 160 is
CC121 on channel 0 (`0xB0, 121, 0`) while message 161 is a Note-Off on
channel 1 (`0x81, 0, 0`): a CC121 precedes 15 channels' worth of Note-Offs,
refuting the claimed order in which all 2,048 Note-Offs come before the
first CC121. -/
theorem sendMidiPanic_order_counterexample :
    ((sendMidiPanic ⟨fun _ => true, 0, []⟩).2.sent.getD 160 []) = [176, 121, 0] ∧
    ((sendMidiPanic ⟨fun _ => true, 0, []⟩).2.sent.getD 161 []) = [129, 0, 0] := by
  have h := (sendMidiPanic_sent ⟨fun _ => true, 0, []⟩).1
  simp only [h, List.nil_append]
  constructor <;> decide

/-- C7: `send_midi_panic` is best-effort — for every pattern of per-send
failures it still attempts the entire 2,112-message sweep and returns
success — while `send_note_on` / `send_note_off` propagate a failure of
their single write as an error. -/
theorem sendMidiPanic_best_effort (ok₀ : ℕ → Bool)
    (channel note velocity : ℕ) :
    (sendMidiPanic ⟨ok₀, 0, []⟩).1.isOk = true ∧
    (sendMidiPanic ⟨ok₀, 0, []⟩).2.sent = panicMessages ∧
    (sendNoteOn channel note velocity ⟨ok₀, 0, []⟩).1 =
      (if ok₀ 0 then Except.ok () else Except.error "Failed to send note on") ∧
    (sendNoteOff channel note velocity ⟨ok₀, 0, []⟩).1 =
      (if ok₀ 0 then Except.ok () else Except.error "Failed to send note off") := by
  refine ⟨(sendMidiPanic_sent _).2, by simpa using (sendMidiPanic_sent _).1, ?_, ?_⟩ <;>
    cases h : ok₀ 0 <;> simp [sendNoteOn, sendNoteOff, sendMsg, h]

/-! ## Exporter (`export.rs`)

The per-segment loop of `SampleExporter::export_samples` is modelled over
the outcome of each `export_sample` call — a file path on success, an error
message otherwise.  The instrument-definition emission that follows the loop
is format-conditional and unreachable once the loop errors. -/

/-- The `for (i, sample) in samples.iter().enumerate()` loop of
`export_samples`: each outcome is unwrapped with `?`, so the first error is
returned immediately.  The second component counts how many segments were
attempted before returning. -/
def exportSamplesLoop : List (Except String String) → List String →
    Except String (List String) × ℕ
  | [], acc => (Except.ok acc.reverse, 0)
  | Except.error e :: _, _ => (Except.error e, 1)
  | Except.ok p :: rest, acc =>
      let r := exportSamplesLoop rest (p :: acc)
      (r.1, r.2 + 1)

/-- `SampleExporter::export_samples`, starting from an empty
`exported_files` vector. -/
def exportSamples (outcomes : List (Except String String)) :
    Except String (List String) × ℕ :=
  exportSamplesLoop outcomes []

lemma exportSamplesLoop_fail (pre post : List (Except String String))
    (e : String) (h : ∀ r ∈ pre, r.isOk = true) (acc : List String) :
    exportSamplesLoop (pre ++ Except.error e :: post) acc =
      (Except.error e, pre.length + 1) := by
  induction pre generalizing acc with
  | nil => rfl
  | cons r pre ih =>
      cases r with
      | error eh =>
          have hfalse := h _ (List.mem_cons_self _ _)
          simp [Except.isOk, Except.toBool] at hfalse
      | ok p =>
          have h₂ : ∀ x ∈ pre, x.isOk = true :=
            fun x hx => h x (List.mem_cons_of_mem _ hx)
          simp [exportSamplesLoop, ih h₂]

/-- C2 (amended): `export_samples` is fail-fast, not record-and-continue:
if the first failing segment sits after `pre` all-successful segments, the
batch returns that segment's error immediately, having attempted only
`pre.length + 1` segments — the segments after the failure are never
exported. -/
theorem exportSamples_fail_fast (pre post : List (Except String String))
    (e : String) (h : ∀ r ∈ pre, r.isOk = true) :
    (exportSamples (pre ++ Except.error e :: post)).1 = Except.error e ∧
    (exportSamples (pre ++ Except.error e :: post)).2 = pre.length + 1 := by
  rw [exportSamples, exportSamplesLoop_fail pre post e h]
  exact ⟨rfl, rfl⟩

/-- C2 (witness): a concrete batch `[Ok "a.wav", Err "disk full",
Ok "c.wav"]` aborts with "disk full" after attempting 2 of 3 segments. -/
theorem exportSamples_fail_fast_witness :
    (exportSamples [Except.ok "a.wav", Except.error "disk full",
      Except.ok "c.wav"]).1 = Except.error "disk full" ∧
    (exportSamples [Except.ok "a.wav", Except.error "disk full",
      Except.ok "c.wav"]).2 = 2 :=
  exportSamples_fail_fast [Except.ok "a.wav"] [Except.ok "c.wav"] "disk full"
    (by decide)

/-- C2 (counterexample): with two segments of which the first fails, the
batch returns the error after attempting only one segment; the second
segment is not exported, refuting "records that error and continues with
the next segment". -/
theorem exportSamples_abort_counterexample :
    exportSamples [Except.error "write failed", Except.ok "b.wav"] =
      (Except.error "write failed", 1) ∧
    [Except.error "write failed", Except.ok "b.wav"].length = 2 :=
  ⟨rfl, rfl⟩

/-! ### PCM encoding (`write_wav_file`)

`f32` samples are modelled as `ℚ`; the Rust `as` float→integer cast
truncates toward zero and saturates to the target integer type's range. -/

/-- Truncation toward zero, the rounding of Rust `as` float→int casts. -/
def ratTrunc (q : ℚ) : ℤ := if 0 ≤ q then ⌊q⌋ else ⌈q⌉

/-- Saturation of the Rust `as i16` cast. -/
def i16Sat (n : ℤ) : ℤ := max (-32768) (min 32767 n)

/-- Saturation of the Rust `as i32` cast. -/
def i32Sat (n : ℤ) : ℤ := max (-2147483648) (min 2147483647 n)

/-- The 16-bit sample encoding of `write_wav_file`:
`(sample * i16::MAX as f32) as i16`. -/
def encodeSample16 (x : ℚ) : ℤ := i16Sat (ratTrunc (x * 32767))

/-- The 24-bit sample encoding of `write_wav_file`:
`(sample * 8_388_607.0) as i32` — note the cast saturates to the `i32`
range, not to the 24-bit range. -/
def encodeSample24 (x : ℚ) : ℤ := i32Sat (ratTrunc (x * 8388607))

lemma ratTrunc_le {q : ℚ} {c : ℤ} (h : q ≤ (c : ℚ)) : ratTrunc q ≤ c := by
  rw [ratTrunc]
  split
  · calc ⌊q⌋ ≤ ⌊(c : ℚ)⌋ := Int.floor_le_floor h
      _ = c := Int.floor_intCast c
  · exact Int.ceil_le.mpr h

lemma le_ratTrunc {q : ℚ} {c : ℤ} (h : (c : ℚ) ≤ q) : c ≤ ratTrunc q := by
  rw [ratTrunc]
  split
  · exact Int.le_floor.mpr h
  · calc c = ⌈(c : ℚ)⌉ := (Int.ceil_intCast c).symm
      _ ≤ ⌈q⌉ := Int.ceil_le_ceil h

/-- C6 (amended): both encoders truncate toward zero rather than round.
The 16-bit encoder saturates to the `i16` range `[-32768, 32767]` (so
`x ≥ 1` clamps to 32767 and `x ≤ -2` to -32768), while the 24-bit encoder
saturates only to the `i32` range: for `x ∈ [-1, 1]` its output is the
plain truncation and lies in `[-8388607, 8388607]`, but for `x ∈ [2, 200]`
the written value strictly exceeds the 24-bit maximum 8388607 — inputs
outside `[-1, 1]` are not clamped to the 24-bit extremes. -/
theorem encodeSample_truncation_saturation (x : ℚ) :
    (-32768 ≤ encodeSample16 x ∧ encodeSample16 x ≤ 32767) ∧
    (1 ≤ x → encodeSample16 x = 32767) ∧
    (x ≤ -2 → encodeSample16 x = -32768) ∧
    (-1 ≤ x → x ≤ 1 →
      encodeSample24 x = ratTrunc (x * 8388607) ∧
      -8388607 ≤ encodeSample24 x ∧ encodeSample24 x ≤ 8388607) ∧
    (2 ≤ x → x ≤ 200 → 8388607 < encodeSample24 x) := by
  refine ⟨⟨?_, ?_⟩, ?_, ?_, ?_, ?_⟩
  · simp only [encodeSample16, i16Sat]; omega
  · simp only [encodeSample16, i16Sat]; omega
  · intro hx
    have hq : ((32767 : ℤ) : ℚ) ≤ x * 32767 := by
      push_cast; nlinarith
    have h₁ := le_ratTrunc hq
    simp only [encodeSample16, i16Sat]; omega
  · intro hx
    have hq : x * 32767 ≤ ((-65534 : ℤ) : ℚ) := by
      push_cast; nlinarith
    have h₁ := ratTrunc_le hq
    simp only [encodeSample16, i16Sat]; omega
  · intro hlo hhi
    have hq₁ : ((-8388607 : ℤ) : ℚ) ≤ x * 8388607 := by push_cast; nlinarith
    have hq₂ : x * 8388607 ≤ ((8388607 : ℤ) : ℚ) := by push_cast; nlinarith
    have h₁ := le_ratTrunc hq₁
    have h₂ := ratTrunc_le hq₂
    refine ⟨?_, ?_, ?_⟩ <;> (simp only [encodeSample24, i32Sat]; omega)
  · intro hlo hhi
    have hq₁ : ((16777214 : ℤ) : ℚ) ≤ x * 8388607 := by push_cast; nlinarith
    have hq₂ : x * 8388607 ≤ ((1677721400 : ℤ) : ℚ) := by push_cast; nlinarith
    have h₁ := le_ratTrunc hq₁
    have h₂ := ratTrunc_le hq₂
    simp only [encodeSample24, i32Sat]; omega

/-- C6 (witness): at `x = 2` the 16-bit encoder clamps to 32767 and the
24-bit encoder exceeds the 24-bit maximum. -/
theorem encodeSample_witness :
    (1 : ℚ) ≤ 2 ∧ encodeSample16 2 = 32767 ∧ 8388607 < encodeSample24 2 :=
  ⟨by norm_num, (encodeSample_truncation_saturation 2).2.1 (by norm_num),
    (encodeSample_truncation_saturation 2).2.2.2.2 (by norm_num) (by norm_num)⟩

/-- C6 (counterexample): the encoders do not round and do not clamp to the
24-bit extremes: `x = 1/2` maps to 16383 (`round(16383.5) = 16384` would be
expected of rounding), and `x = 2` maps to 16777214, outside
`[-8388608, 8388607]`. -/
theorem encodeSample_counterexample :
    encodeSample16 (1/2) = 16383 ∧ encodeSample16 (1/2) ≠ 16384 ∧
    encodeSample24 2 = 16777214 ∧ ¬(encodeSample24 2 ≤ 8388607) := by
  have h₁ : ratTrunc ((1/2 : ℚ) * 32767) = 16383 := by
    rw [ratTrunc, if_pos (by norm_num), Int.floor_eq_iff]
    constructor <;> norm_num
  have h₂ : ratTrunc ((2 : ℚ) * 8388607) = 16777214 := by
    rw [ratTrunc, if_pos (by norm_num)]
    rw [show (2 : ℚ) * 8388607 = ((16777214 : ℤ) : ℚ) by norm_num]
    exact Int.floor_intCast _
  have e₁ : encodeSample16 (1/2) = 16383 := by rw [encodeSample16, h₁]; decide
  have e₂ : encodeSample24 2 = 16777214 := by rw [encodeSample24, h₂]; decide
  exact ⟨e₁, by rw [e₁]; decide, e₂, by rw [e₂]; decide⟩

/-! ### `.dspreset` emission (`generate_dspreset_xml`)

The XML string assembly is modelled by the group structure it emits: one
`<group>` per distinct velocity (sorted ascending, as the source sorts the
`HashMap` keys), each carrying the `(loVel, hiVel)` range assigned to its
layer and one `<sample>` element per sample of that velocity. -/

structure SampleMeta where
  note : ℕ
  velocity : ℕ
deriving DecidableEq

/-- The distinct velocities in ascending order (`sorted_velocities`). -/
def sortedVelocities (samples : List SampleMeta) : List ℕ :=
  ((samples.map SampleMeta.velocity).dedup).insertionSort (· ≤ ·)

/-- The `(lo_vel, hi_vel)` pair `generate_dspreset_xml` computes for group
`groupIndex` of `layerCount` velocity layers: a single layer covers
`(0, 127)`; otherwise `vel_range = 127 / layerCount` in integer division,
`lo = (idx * vel_range).max(0)`, `hi = ((idx + 1) * vel_range).min(127)`. -/
def dspresetVelRange (layerCount groupIndex : ℕ) : ℕ × ℕ :=
  if layerCount = 1 then (0, 127)
  else
    (max (groupIndex * (127 / layerCount)) 0,
      min ((groupIndex + 1) * (127 / layerCount)) 127)

/-- The `<groups>` content of the generated `.dspreset`: per distinct
velocity in ascending order, the group's velocity range and its member
samples in input order. -/
def dspresetGroups (samples : List SampleMeta) :
    List ((ℕ × ℕ) × List SampleMeta) :=
  (sortedVelocities samples).enum.map fun p =>
    (dspresetVelRange (sortedVelocities samples).length p.1,
      samples.filter fun s => s.velocity == p.2)

/-- The S6 scenario input: notes {60, 62, 64} at velocities {64, 127}. -/
def s6Samples : List SampleMeta :=
  [⟨60, 64⟩, ⟨62, 64⟩, ⟨64, 64⟩, ⟨60, 127⟩, ⟨62, 127⟩, ⟨64, 127⟩]

/-- C3: on the S6 input the source emits 2 groups of 3 samples each (6
`<sample>` elements), but with velocity ranges `(0, 63)` and `(63, 126)` —
overlapping at 63 and leaving velocity 127 uncovered — not the claimed
`[1, 63]` and `[64, 127]`: integer division `127 / 2 = 63` leaves a
one-value gap at the top, exactly the divergence §9 of the specification
flags and overrides. -/
theorem dspreset_s6_velocity_ranges :
    (dspresetGroups s6Samples).length = 2 ∧
    ((dspresetGroups s6Samples).map fun g => g.2.length) = [3, 3] ∧
    ((dspresetGroups s6Samples).map Prod.fst) = [(0, 63), (63, 126)] ∧
    ((dspresetGroups s6Samples).map Prod.fst) ≠ [(1, 63), (64, 127)] := by
  decide

/-! ## Boundary detection (`detection.rs`)

`f32` samples and millisecond values are modelled as `ℚ`.  The source only
ever compares per-window RMS values (`sqrt(sum_squares / N)`) against the
linear threshold (`10^(threshold_db / 20)`), both nonnegative; since `sqrt`
is strictly monotone on nonnegatives, the comparisons are modelled on the
squares: the model stores mean-square window values and its configuration
carries the squared linear threshold.  A Rust panic is `Option.none`. -/

structure DetectionConfigM where
  thresholdSqLinear : ℚ
  windowSizeMs : ℚ
  minSampleLengthMs : ℚ
  preTriggerMs : ℚ
  postTriggerMs : ℚ
  confirmationWindows : ℕ
deriving DecidableEq

structure DetectionResultM where
  startSample : ℕ
  endSample : ℕ
  detectedStart : ℕ
  detectedEnd : ℕ
  rmsSqValues : List ℚ
  success : Bool
  failureReason : Option String
deriving DecidableEq

/-- `((ms / 1000.0) * sample_rate as f32) as usize`: truncation toward
zero; a negative value saturates to 0. -/
def msToSamples (ms : ℚ) (sampleRate : ℕ) : ℕ :=
  (⌊ms / 1000 * sampleRate⌋).toNat

/-- The mean square of a window (the square of the RMS the source stores). -/
def meanSq (w : List ℚ) : ℚ :=
  (w.map fun x => x * x).sum / w.length

/-- `calculate_rms_windows`, with RMS values replaced by their squares:
when the window is larger than the audio, a single whole-buffer value;
otherwise `audio_data.windows(window_size)` yields all contiguous windows
(start indices `0..=len - window_size`) and `step_by(window_size / 2)`
keeps the starts divisible by `window_size / 2` — and panics (`none`) when
that step is 0, i.e. when `window_size = 1`. -/
def calculateRmsWindows (audioData : List ℚ) (windowSize : ℕ) :
    Option (List ℚ) :=
  if audioData.length < windowSize then
    some [meanSq audioData]
  else if windowSize / 2 = 0 then
    none
  else
    some (((List.range (audioData.length - windowSize + 1)).filter
        fun i => i % (windowSize / 2) == 0).map
      fun i => meanSq ((audioData.drop i).take windowSize))

/-- The inner loop of `find_start_boundary`: how many consecutive windows
of `rms[i..min(len, i + count)]` are above threshold before the first dip. -/
def consecAbove (rms : List ℚ) (threshold : ℚ) (i count : ℕ) : ℕ :=
  (((rms.drop i).take count).takeWhile fun x => decide (threshold < x)).length

/-- `find_start_boundary`: first index with `confirmation_windows`
consecutive windows above threshold, else the first single window above
threshold, else 0. -/
def findStartBoundary (rms : List ℚ) (threshold : ℚ) (c : ℕ) : ℕ :=
  match (List.range rms.length).find?
      (fun i => decide (c ≤ consecAbove rms threshold i c)) with
  | some i => i
  | none =>
    match (List.range rms.length).find?
        (fun i => decide (threshold < rms.getD i 0)) with
    | some i => i
    | none => 0

/-- The inner loop of `find_end_boundary`: consecutive windows above
threshold scanning down from `i` through `i.saturating_sub(c - 1)`. -/
def consecAboveRev (rms : List ℚ) (threshold : ℚ) (i c : ℕ) : ℕ :=
  ((((rms.drop (i + 1 - c)).take (i + 1 - (i + 1 - c))).reverse).takeWhile
    fun x => decide (threshold < x)).length

/-- `find_end_boundary`: searching backwards from the last window down to
`start_window`, the first index with enough consecutive windows above
threshold, else the last single window above threshold, else
`len.saturating_sub(1)`. -/
def findEndBoundary (rms : List ℚ) (threshold : ℚ) (c startWindow : ℕ) : ℕ :=
  match ((List.range' startWindow (rms.length - startWindow)).reverse).find?
      (fun i => decide (c ≤ consecAboveRev rms threshold i c)) with
  | some i => i
  | none =>
    match ((List.range' startWindow (rms.length - startWindow)).reverse).find?
        (fun i => decide (threshold < rms.getD i 0)) with
    | some i => i
    | none => rms.length - 1

/-- `find_signal_boundaries`. -/
def findSignalBoundaries (rms : List ℚ) (threshold : ℚ) (c : ℕ) :
    Except String (ℕ × ℕ) :=
  if rms.isEmpty then Except.error "No RMS values to analyze"
  else
    let startWindow := findStartBoundary rms threshold c
    Except.ok (startWindow, findEndBoundary rms threshold c startWindow)

/-- `usize` subtraction as compiled in release mode: wraps modulo `2^64`
(the operands produced by `detect_boundaries` are list indices, far below
`2^64`). -/
def usizeSub (a b : ℕ) : ℕ :=
  if b ≤ a then a - b else 2 ^ 64 - (b - a)

/-- `SampleDetector::detect_boundaries`: `none` models a panic, otherwise
the source's `Result<DetectionResult>`. -/
def detectBoundaries (cfg : DetectionConfigM) (audioData : List ℚ)
    (sampleRate : ℕ) : Option (Except String DetectionResultM) :=
  if audioData.isEmpty then
    some (Except.ok ⟨0, 0, 0, 0, [], false, some "Empty audio data"⟩)
  else
    let windowSizeSamples := msToSamples cfg.windowSizeMs sampleRate
    if windowSizeSamples = 0 then
      some (Except.error "Window size too small")
    else
      match calculateRmsWindows audioData windowSizeSamples with
      | none => none
      | some rmsValues =>
        match findSignalBoundaries rmsValues cfg.thresholdSqLinear
            cfg.confirmationWindows with
        | Except.error e => some (Except.error e)
        | Except.ok bounds =>
          let detectedStartSample := bounds.1 * windowSizeSamples
          let detectedEndSample :=
            min ((bounds.2 + 1) * windowSizeSamples) audioData.length
          let finalStart :=
            detectedStartSample - msToSamples cfg.preTriggerMs sampleRate
          let finalEnd :=
            min (detectedEndSample + msToSamples cfg.postTriggerMs sampleRate)
              audioData.length
          if usizeSub finalEnd finalStart <
              msToSamples cfg.minSampleLengthMs sampleRate then
            some (Except.ok ⟨0, audioData.length, detectedStartSample,
              detectedEndSample, rmsValues, false,
              some "Sample too short after detection"⟩)
          else
            some (Except.ok ⟨finalStart, finalEnd, detectedStartSample,
              detectedEndSample, rmsValues, true, none⟩)

/-- `SampleDetector::trim_audio`: a failed detection or inverted
boundaries return the original audio, otherwise the slice
`[start_sample, end_sample)` clamped to the buffer. -/
def trimAudio (audioData : List ℚ) (detection : DetectionResultM) :
    List ℚ :=
  if !detection.success then audioData
  else
    let start := min detection.startSample audioData.length
    let stop := min detection.endSample audioData.length
    if stop ≤ start then audioData
    else (audioData.drop start).take (stop - start)

/-- C10: on an empty buffer `detect_boundaries` returns `Ok` (not an
error) with `success = false`, reason "Empty audio data" and all four
boundary indices 0. -/
theorem detectBoundaries_empty (cfg : DetectionConfigM) (sampleRate : ℕ) :
    detectBoundaries cfg [] sampleRate =
      some (Except.ok ⟨0, 0, 0, 0, [], false, some "Empty audio data"⟩) :=
  rfl

/-- C5: on a non-empty buffer, any non-error result of `detect_boundaries`
whose padded region came out shorter than the minimum is marked
`success = false` and keeps `start_sample = 0`, `end_sample =` full buffer
length, so `trim_audio` leaves the audio unchanged; contrapositively, a
`success = true` result always records a padded region of at least the
configured minimum length. -/
theorem detectBoundaries_short_keeps_audio (cfg : DetectionConfigM)
    (audioData : List ℚ) (sampleRate : ℕ) (r : DetectionResultM)
    (hne : audioData ≠ [])
    (hr : detectBoundaries cfg audioData sampleRate = some (Except.ok r)) :
    (r.success = false →
      r.startSample = 0 ∧ r.endSample = audioData.length ∧
        trimAudio audioData r = audioData) ∧
    (r.success = true →
      msToSamples cfg.minSampleLengthMs sampleRate ≤
        usizeSub r.endSample r.startSample) := by
  have hempty : audioData.isEmpty = false := by
    cases audioData with
    | nil => exact absurd rfl hne
    | cons a l => rfl
  rw [detectBoundaries] at hr
  rw [hempty] at hr
  simp only [Bool.false_eq_true, if_false] at hr
  split at hr
  · exact absurd (Option.some.inj hr) (by simp)
  · split at hr
    · exact absurd hr (by simp)
    · split at hr
      · exact absurd (Option.some.inj hr) (by simp)
      · split at hr
        · have h := Except.ok.inj (Option.some.inj hr)
          subst h
          exact ⟨fun _ => ⟨rfl, rfl, rfl⟩, fun htrue => by simp at htrue⟩
        · next hshort =>
            have h := Except.ok.inj (Option.some.inj hr)
            subst h
            exact ⟨fun hfalse => by simp at hfalse,
              fun _ => Nat.le_of_not_lt hshort⟩

/-- C5 (witness): four loud samples at 1 kHz with a 2 ms window and a
100 ms-scaled minimum of 10 samples: detection finds the whole buffer,
4 < 10 triggers the short path, and the audio survives trimming intact. -/
theorem detectBoundaries_short_witness :
    detectBoundaries ⟨1/4, 2, 10, 0, 0, 1⟩ [1, 1, 1, 1] 1000 =
      some (Except.ok ⟨0, 4, 0, 4, [1, 1, 1], false,
        some "Sample too short after detection"⟩) ∧
    (⟨0, 4, 0, 4, [1, 1, 1], false, some "Sample too short after detection"⟩ :
      DetectionResultM).startSample = 0 ∧
    ([1, 1, 1, 1] : List ℚ).length = 4 ∧
    trimAudio [1, 1, 1, 1]
      ⟨0, 4, 0, 4, [1, 1, 1], false,
        some "Sample too short after detection"⟩ = [1, 1, 1, 1] := by
  have hr : detectBoundaries ⟨1/4, 2, 10, 0, 0, 1⟩ [1, 1, 1, 1] 1000 =
      some (Except.ok ⟨0, 4, 0, 4, [1, 1, 1], false,
        some "Sample too short after detection"⟩) := by
    norm_num [detectBoundaries, msToSamples, calculateRmsWindows, meanSq,
      findSignalBoundaries, findStartBoundary, findEndBoundary,
      consecAbove, consecAboveRev, usizeSub, List.range_succ,
      show Int.toNat 2 = 2 from rfl, show Int.toNat 10 = 10 from rfl,
      show Int.toNat 0 = 0 from rfl,
      show List.range' 0 3 = [0, 1, 2] from rfl]
  have h := (detectBoundaries_short_keeps_audio ⟨1/4, 2, 10, 0, 0, 1⟩
    [1, 1, 1, 1] 1000 _ (by simp) hr).1 rfl
  exact ⟨hr, h.1, rfl, h.2.2⟩

/-- C9 (amended): for every non-empty buffer whose computed window size is
at least 2 samples, `detect_boundaries` terminates with a result or an
error (no panic).  (The `window = 1` case panics; see the
counterexample.) -/
theorem detectBoundaries_total_window_ge_two (cfg : DetectionConfigM)
    (audioData : List ℚ) (sampleRate : ℕ) (hne : audioData ≠ [])
    (hw : 2 ≤ msToSamples cfg.windowSizeMs sampleRate) :
    (detectBoundaries cfg audioData sampleRate).isSome = true := by
  have hempty : audioData.isEmpty = false := by
    cases audioData with
    | nil => exact absurd rfl hne
    | cons a l => rfl
  rw [detectBoundaries, hempty]
  simp only [Bool.false_eq_true, if_false]
  split
  · rfl
  · have hcalc : calculateRmsWindows audioData
        (msToSamples cfg.windowSizeMs sampleRate) ≠ none := by
      rw [calculateRmsWindows]
      split
      · simp
      · split
        · next hdiv =>
            have h2 : (2 : ℕ) / 2 ≤ msToSamples cfg.windowSizeMs sampleRate / 2 :=
              Nat.div_le_div_right hw
            omega
        · simp
    split
    · next hnone => exact absurd hnone hcalc
    · split
      · rfl
      · split <;> rfl

/-- C9 (witness): a 2-sample window on a 2-sample buffer is processed
without panicking. -/
theorem detectBoundaries_total_witness :
    ([1, 1] : List ℚ) ≠ [] ∧
    2 ≤ msToSamples 2 1000 ∧
    (detectBoundaries ⟨1/4, 2, 10, 0, 0, 1⟩ [1, 1] 1000).isSome = true := by
  have hw : 2 ≤ msToSamples 2 1000 := by
    norm_num [msToSamples, show Int.toNat 2 = 2 from rfl]
  refine ⟨by simp, hw, ?_⟩
  exact detectBoundaries_total_window_ge_two ⟨1/4, 2, 10, 0, 0, 1⟩
    [1, 1] 1000 (by simp) hw

/-- C9 (counterexample): with a computed window size of exactly 1 sample
(1 ms at 1 kHz) on a non-empty buffer, the 50 % hop becomes
`step_by(1 / 2) = step_by(0)` and `calculate_rms_windows` panics — the
call does not return a result or an error. -/
theorem detectBoundaries_window_one_panics :
    detectBoundaries ⟨1/4, 1, 10, 0, 0, 1⟩ [1, 1] 1000 = none := by
  norm_num [detectBoundaries, msToSamples, calculateRmsWindows,
    show Int.toNat 1 = 1 from rfl]

/-! ## Loop-point correlation (`loop_detection.rs`)

`LoopDetector::normalized_cross_correlation` compares two windows over
their common prefix of length `min(len1, len2)`.  Its `ℚ` ingredients
(means, numerator, sums of squared deviations) are executable; the final
square root forces the assembled function into `ℝ`. -/

/-- `let len = window1.len().min(window2.len())`. -/
def nccLen (w1 w2 : List ℚ) : ℕ := min w1.length w2.length

/-- The mean of the first `n` entries
(`window.iter().take(len).sum::<f32>() / len as f32`). -/
def windowMean (w : List ℚ) (n : ℕ) : ℚ := (w.take n).sum / n

/-- `numerator = Σ (window1[i] - mean1) * (window2[i] - mean2)`. -/
def nccNumerator (w1 w2 : List ℚ) (n : ℕ) : ℚ :=
  (List.zipWith (fun x y => (x - windowMean w1 n) * (y - windowMean w2 n))
    (w1.take n) (w2.take n)).sum

/-- `sum_sq = Σ (window[i] - mean)²`. -/
def sumSqDev (w : List ℚ) (n : ℕ) : ℚ :=
  ((w.take n).map fun x => (x - windowMean w n) * (x - windowMean w n)).sum

/-- `normalized_cross_correlation`: 0 for a common length below 2,
otherwise `|numerator / sqrt(sum_sq1 * sum_sq2)|`, and 0 when the
denominator is not positive. -/
noncomputable def normalizedCrossCorrelation (w1 w2 : List ℚ) : ℝ :=
  if nccLen w1 w2 < 2 then 0
  else
    let denominator :=
      Real.sqrt (((sumSqDev w1 (nccLen w1 w2) *
        sumSqDev w2 (nccLen w1 w2) : ℚ) : ℝ))
    if 0 < denominator then
      |((nccNumerator w1 w2 (nccLen w1 w2) : ℚ) : ℝ) / denominator|
    else 0

/-- C8 (amended): for every window of length at least 2 whose sum of
squared deviations is positive (a non-constant window), the normalized
cross-correlation of the window with itself is exactly 1 in exact
arithmetic — in particular within the claimed 1e-3.  (Constant or
length-< 2 windows return 0 instead; see the counterexample.) -/
theorem normalizedCrossCorrelation_self (w : List ℚ)
    (hlen : 2 ≤ w.length) (hvar : 0 < sumSqDev w w.length) :
    normalizedCrossCorrelation w w = 1 := by
  have hn : nccLen w w = w.length := by simp [nccLen]
  have hnum : nccNumerator w w w.length = sumSqDev w w.length := by
    rw [nccNumerator, sumSqDev, List.zipWith_same]
  have hpos : (0 : ℝ) < ((sumSqDev w w.length : ℚ) : ℝ) := by exact_mod_cast hvar
  have hsqrt : Real.sqrt (((sumSqDev w w.length * sumSqDev w w.length : ℚ) : ℝ))
      = ((sumSqDev w w.length : ℚ) : ℝ) := by
    rw [show ((sumSqDev w w.length * sumSqDev w w.length : ℚ) : ℝ)
        = ((sumSqDev w w.length : ℚ) : ℝ) * ((sumSqDev w w.length : ℚ) : ℝ) by
      push_cast; ring]
    exact Real.sqrt_mul_self hpos.le
  rw [normalizedCrossCorrelation, if_neg (by rw [hn]; omega)]
  simp only [hn, hsqrt, hnum]
  rw [if_pos hpos, div_self hpos.ne']
  exact abs_one

/-- C8 (witness): the window `[0, 1]` has positive variance and
self-correlation exactly 1. -/
theorem normalizedCrossCorrelation_self_witness :
    2 ≤ ([0, 1] : List ℚ).length ∧
    0 < sumSqDev [0, 1] ([0, 1] : List ℚ).length ∧
    normalizedCrossCorrelation [0, 1] [0, 1] = 1 := by
  have hvar : 0 < sumSqDev [0, 1] ([0, 1] : List ℚ).length := by
    norm_num [sumSqDev, windowMean]
  exact ⟨by norm_num, hvar,
    normalizedCrossCorrelation_self [0, 1] (by norm_num) hvar⟩

/-- C8 (counterexample): the constant window `[1, 1]` (length 2, a
perfectly legitimate audio window) has self-correlation 0, not 1 within
1e-3: its squared-deviation sum is 0, so the denominator guard returns 0. -/
theorem normalizedCrossCorrelation_const_counterexample :
    normalizedCrossCorrelation [1, 1] [1, 1] = 0 ∧
    ¬(|normalizedCrossCorrelation [1, 1] [1, 1] - 1| ≤ 1 / 1000) := by
  have hS : sumSqDev [1, 1] (nccLen [1, 1] [1, 1]) = 0 := by
    norm_num [sumSqDev, windowMean, nccLen]
  have h : normalizedCrossCorrelation [1, 1] [1, 1] = 0 := by
    rw [normalizedCrossCorrelation, if_neg (by norm_num [nccLen])]
    simp [hS]
  refine ⟨h, ?_⟩
  rw [h, show |(0 : ℝ) - 1| = 1 by rw [zero_sub, abs_neg, abs_one]]
  norm_num

end Batcherbird
